import Mathlib

/-!
Shallow embedding of the ai-voice-detection-api pipeline
(src/utils/validation.py, src/utils/audio_utils.py,
src/utils/feature_extractor.py, src/model/classifier.py,
src/model/inference.py, src/app/api.py) and proofs about it.

Floating-point values are modelled as rationals (`ℚ`); the numeric
comparisons that the claims depend on (`confidence < 0.85`,
`len(audio) < sr * 0.5`, `total_size > MAX_FILE_SIZE`) are exact in both
the Python floats involved and in `ℚ`. Python exceptions are modelled by
`Except`, the exception class by the `ApiError` inductive. Filesystem
effects are modelled by explicit booleans recording whether the request's
temporary file exists after the call.
-/

/-- Exception classes raised by the pipeline: `ValidationError`
(src/utils/validation.py), `AudioDownloadError` (src/utils/audio_utils.py),
and any other uncaught exception (mapped to a 500 by the API layer). -/
inductive ApiError where
  | validationError (msg : String)
  | downloadError (msg : String)
  | internalError (msg : String)
deriving DecidableEq, Repr

/-- Does list `l` begin with list `p`? (helper for the substring test). -/
def leadMatch : List Char → List Char → Bool
  | _, [] => true
  | [], _ :: _ => false
  | a :: l, b :: p => a = b && leadMatch l p

/-- Does `p` occur as a contiguous sublist of `hay`? Models Python's
`p in hay` substring test on strings. -/
def hasSub : List Char → List Char → Bool
  | [], p => leadMatch [] p
  | c :: rest, p => leadMatch (c :: rest) p || hasSub rest p

/-- Python `pat in s` on strings. -/
def strHasSub (s pat : String) : Bool :=
  hasSub s.data pat.data

/-- Python `s.lower()` (the URLs handled here are ASCII). -/
def strLower (s : String) : String :=
  ⟨s.data.map Char.toLower⟩

/-- Python `s.startswith(p)` on strings. -/
def startsWithStr (s p : String) : Bool :=
  leadMatch s.data p.data

/-- Split `hay` at the first occurrence of `sep`: the pieces before and
after it, or `none` when `sep` does not occur. -/
def splitFirst (sep : List Char) : List Char → Option (List Char × List Char)
  | [] => if leadMatch [] sep then some ([], []) else none
  | c :: rest =>
    if leadMatch (c :: rest) sep then some ([], (c :: rest).drop sep.length)
    else
      match splitFirst sep rest with
      | some (pre, post) => some (c :: pre, post)
      | none => none

/-- Modelled from the Python standard library: the `scheme` attribute of
`urllib.parse.urlparse(url)` for the URL shapes this service sees
(`scheme://netloc/path` or scheme-less strings). `urlparse` lowercases the
scheme. -/
def urlScheme (url : String) : String :=
  match splitFirst "://".data url.data with
  | some (pre, _) => ⟨pre.map Char.toLower⟩
  | none => ""

/-- Modelled from the Python standard library: the `netloc` attribute of
`urllib.parse.urlparse(url)` for `scheme://netloc/path`-shaped URLs: the
text between `://` and the next `/`. -/
def urlNetloc (url : String) : String :=
  match splitFirst "://".data url.data with
  | some (_, post) => ⟨post.takeWhile (fun c => c ≠ '/')⟩
  | none => ""

/-- src/utils/validation.py: the `dangerous_patterns` blocklist inside
`InputValidator.validate_url`, in source order. -/
def dangerous_patterns : List String :=
  ["localhost", "127.0.0.1", "0.0.0.0", "192.168.", "10.", "172.16.",
   "file://", "ftp://"]

/-- src/utils/validation.py `InputValidator.validate_url`. A
`ValidationError` raised inside the `try` block is caught by the generic
`except Exception` clause and re-raised wrapped in the text
`Invalid URL: ...`; the blocklist raise sits outside the `try`. -/
def validate_url (url : String) : Except ApiError Bool :=
  if url = "" then
    .error (.validationError "URL must be a non-empty string")
  else
    let scheme := urlScheme url
    let netloc := urlNetloc url
    if ¬(scheme ≠ "" ∧ netloc ≠ "") then
      .error (.validationError "Invalid URL: Invalid URL format")
    else if ¬(scheme = "http" ∨ scheme = "https") then
      .error (.validationError "Invalid URL: URL must use HTTP or HTTPS protocol")
    else if dangerous_patterns.any (fun p => strHasSub (strLower url) p) then
      .error (.validationError "Security: Cannot access local/internal resources")
    else
      .ok true

/-- src/model/inference.py lines 63–66: the safety threshold applied to the
raw classifier output inside `InferenceEngine.predict`. Only `label` is
reassigned; `confidence` flows through untouched. `0.85 = 17/20`. -/
def applySafetyOverride (label : String) (confidence : ℚ) : String × ℚ :=
  if label = "AI_GENERATED" ∧ confidence < 17/20 then ("HUMAN", confidence)
  else (label, confidence)

/-- src/utils/audio_utils.py `AudioProcessor.MAX_FILE_SIZE = 50 * 1024 * 1024`. -/
def MAX_FILE_SIZE : ℕ := 50 * 1024 * 1024

/-- src/utils/audio_utils.py `AudioProcessor.TARGET_SAMPLE_RATE = 16000`. -/
def TARGET_SAMPLE_RATE : ℕ := 16000

/-- The temporary file name `audio_<md5(url+time)>.tmp` in the scratch
directory; the hash and timestamp are not modelled, only that the path is a
function of the request. -/
def tempPathFor (url : String) : String :=
  "audio_" ++ url ++ ".tmp"

/-- Behaviour of the remote server for one request, as observed through
`requests`: the connection fails up front (`requests.get` /
`raise_for_status` raises), or `iter_content` yields these chunk sizes and
then raises mid-stream, or yields them and ends normally. -/
inductive NetBehavior where
  | connectFail
  | streamFail (chunks : List ℕ)
  | complete (chunks : List ℕ)

/-- State of the `for chunk in response.iter_content(...)` loop in
`download_audio` when it stops: bytes accumulated in `total_size`, number
of chunks consumed from the stream, and whether the `total_size >
MAX_FILE_SIZE` branch fired (which removes the file and raises). -/
structure ChunkScan where
  total : ℕ
  consumed : ℕ
  overLimit : Bool
deriving DecidableEq, Repr

/-- src/utils/audio_utils.py lines 74–87: the download loop. A falsy
(empty) chunk is consumed but skipped by `if chunk:`; otherwise
`total_size` grows by the chunk length and the limit is checked before the
chunk is written. -/
def writeChunks : List ℕ → ℕ → ℕ → ChunkScan
  | [], total, consumed => ⟨total, consumed, false⟩
  | c :: rest, total, consumed =>
    if c = 0 then writeChunks rest total (consumed + 1)
    else if total + c > MAX_FILE_SIZE then ⟨total + c, consumed + 1, true⟩
    else writeChunks rest (total + c) (consumed + 1)

/-- Result of `download_audio`: the returned path or raised error, whether
the temp file is still on disk afterwards, and how many chunks were read
from the response stream. -/
structure DownloadResult where
  result : Except ApiError String
  tempFileExists : Bool
  chunksConsumed : ℕ

/-- src/utils/audio_utils.py `AudioProcessor.download_audio`. The scheme
check (`url.startswith(('http://', 'https://'))`) runs before the `try`
block. An `AudioDownloadError` raised inside the `try` (file too large,
empty download) is caught by `except Exception` and re-raised wrapped in
`Unexpected error during download: ...`; a `requests.RequestException` is
wrapped in `Download failed: ...`. The temp file is created by
`open(temp_path, 'wb')`, removed by `os.remove` on the over-limit and
empty branches, and left on disk when the stream raises mid-download. -/
def download_audio (url : String) (net : NetBehavior) : DownloadResult :=
  if ¬(startsWithStr url "http://" || startsWithStr url "https://") then
    ⟨.error (.downloadError "Invalid URL: must use http or https protocol"), false, 0⟩
  else
    match net with
    | .connectFail =>
      ⟨.error (.downloadError "Download failed: network error"), false, 0⟩
    | .streamFail chunks =>
      let scan := writeChunks chunks 0 0
      if scan.overLimit then
        ⟨.error (.downloadError
            "Unexpected error during download: File too large: exceeds 50.0MB limit"),
         false, scan.consumed⟩
      else
        ⟨.error (.downloadError "Download failed: network error"), true, scan.consumed⟩
    | .complete chunks =>
      let scan := writeChunks chunks 0 0
      if scan.overLimit then
        ⟨.error (.downloadError
            "Unexpected error during download: File too large: exceeds 50.0MB limit"),
         false, scan.consumed⟩
      else if scan.total = 0 then
        ⟨.error (.downloadError
            "Unexpected error during download: Downloaded file is empty"),
         false, scan.consumed⟩
      else
        ⟨.ok (tempPathFor url), true, scan.consumed⟩

/-- src/utils/audio_utils.py line 151: `np.abs(audio).max()`, which raises
on a zero-size array. -/
def npAbsMax : List ℚ → Option ℚ
  | [] => none
  | h :: t => some ((t.map (fun x => |x|)).foldl max |h|)

/-- src/utils/audio_utils.py `AudioProcessor._normalize_audio`: divide by
the peak absolute value when it is positive, else return the input. -/
def _normalize_audio (audio : List ℚ) : Except String (List ℚ) :=
  match npAbsMax audio with
  | none => .error "zero-size array to reduction operation maximum"
  | some max_val =>
    if max_val > 0 then .ok (audio.map (fun x => x / max_val))
    else .ok audio

/-- src/utils/audio_utils.py `AudioProcessor.load_and_preprocess`. The
`librosa.load` call (decode, resample to 16 kHz, downmix, 60 s cap) is
external; its outcome is the `decoded` argument (`none` = decode raised).
Every raise inside the `try`, including the two explicit
`AudioDownloadError`s, is caught by `except Exception` and re-raised
wrapped in `Failed to load audio: ...`. The length test is
`len(audio) < sr * 0.5`. -/
def load_and_preprocess (decoded : Option (List ℚ × ℕ)) :
    Except ApiError (List ℚ × ℕ) :=
  match decoded with
  | none => .error (.downloadError "Failed to load audio: decode error")
  | some (audio, sr) =>
    if audio.length = 0 then
      .error (.downloadError "Failed to load audio: Audio file is empty or corrupted")
    else if (audio.length : ℚ) < (sr : ℚ) * (1/2) then
      .error (.downloadError
        "Failed to load audio: Audio too short: minimum 0.5 seconds required")
    else
      match _normalize_audio audio with
      | .error e => .error (.downloadError ("Failed to load audio: " ++ e))
      | .ok a => .ok (a, sr)

/-- Result of `process_audio_from_url`: the value or error, and whether the
request's temp file is still on disk afterwards. -/
structure PipelineResult where
  result : Except ApiError (List ℚ × ℕ × String)
  tempFileExists : Bool

/-- src/utils/audio_utils.py `AudioProcessor.process_audio_from_url`:
download, then decode; on an exception, `cleanup(temp_path)` runs only if
the local `temp_path` was assigned, i.e. only when `download_audio`
returned — a failure inside `download_audio` leaves the file state as
`download_audio` left it. -/
def process_audio_from_url (url : String) (net : NetBehavior)
    (decoded : Option (List ℚ × ℕ)) : PipelineResult :=
  let d := download_audio url net
  match d.result with
  | .error e => ⟨.error e, d.tempFileExists⟩
  | .ok path =>
    match load_and_preprocess decoded with
    | .error e => ⟨.error e, false⟩
    | .ok (audio, sr) => ⟨.ok (audio, sr, path), true⟩

/-- src/utils/validation.py `LanguageDetector.detect_language`: substring
markers over the lowercased file path. -/
def detect_language (audio_path : String) : String :=
  let path_lower := strLower audio_path
  if ["hindi", "hi_", "_hi", "hin"].any (fun i => strHasSub path_lower i) then
    "Hindi"
  else if ["english", "en_", "_en", "eng"].any (fun i => strHasSub path_lower i) then
    "English"
  else
    "Unknown"

/-- src/model/inference.py `InferenceEngine._generate_explanation`: six
fixed narratives keyed by label and confidence tier (`> 0.85`, `> 0.65`,
else). Texts abbreviated to their first clause. -/
def _generate_explanation (label : String) (confidence : ℚ) : String :=
  if label = "AI_GENERATED" then
    if confidence > 17/20 then "High confidence AI-generated voice detected."
    else if confidence > 13/20 then "Likely AI-generated voice with moderate confidence."
    else "Possible AI-generated voice with low confidence."
  else
    if confidence > 17/20 then "High confidence human voice detected."
    else if confidence > 13/20 then "Likely human voice with moderate confidence."
    else "Possible human voice with low confidence."

/-- The success dictionary built by `InferenceEngine.predict`
(`processing_time_ms` is wall-clock time and is not modelled; the
`round(confidence, 4)` display rounding is likewise not modelled). -/
structure PredictOutput where
  label : String
  confidence : ℚ
  language : String
  fraud_risk_explanation : String
  statusTag : String

/-- Result of `InferenceEngine.predict`: the returned dictionary or the
propagated exception, plus whether the request's temp file survives. -/
structure EngineResult where
  result : Except ApiError PredictOutput
  tempFileExists : Bool

/-- src/model/inference.py `InferenceEngine.predict`. The classifier and
feature extractor are numeric black boxes here: `rawLabel`/`rawConf` stand
for `self.model.predict(features)` and `laterStagesFail` for an exception
raised in steps 2–5 (feature extraction/classification). The `finally`
block deletes the temp file whenever the local `temp_path` was assigned —
which happens only when `process_audio_from_url` returned successfully. -/
def enginePredict (url : String) (net : NetBehavior)
    (decoded : Option (List ℚ × ℕ)) (laterStagesFail : Bool)
    (rawLabel : String) (rawConf : ℚ) : EngineResult :=
  let p := process_audio_from_url url net decoded
  match p.result with
  | .error e => ⟨.error e, p.tempFileExists⟩
  | .ok (_, _, path) =>
    if laterStagesFail then
      ⟨.error (.internalError "pipeline stage raised"), false⟩
    else
      let lc := applySafetyOverride rawLabel rawConf
      ⟨.ok ⟨lc.1, lc.2, detect_language path,
            _generate_explanation lc.1 lc.2, "success"⟩, false⟩

/-- Result of the `/predict` endpoint body: the response or error, whether
the pipeline was entered (a download attempted), and the temp-file state. -/
structure ApiCallResult where
  response : Except ApiError PredictOutput
  pipelineEntered : Bool
  tempFileExists : Bool

/-- src/app/api.py `predict_voice` (lines 185–192):
`InputValidator.validate_url(request.audio_url)` runs first; only when it
passes is `engine.predict(request.audio_url)` called, so a validation
failure means the pipeline — and hence any download — never runs. -/
def predict_voice (url : String) (net : NetBehavior)
    (decoded : Option (List ℚ × ℕ)) (laterStagesFail : Bool)
    (rawLabel : String) (rawConf : ℚ) : ApiCallResult :=
  match validate_url url with
  | .error e => ⟨.error e, false, false⟩
  | .ok _ =>
    let r := enginePredict url net decoded laterStagesFail rawLabel rawConf
    ⟨r.result, true, r.tempFileExists⟩

/-- The trained scikit-learn `RandomForestClassifier` inside
`VoiceClassifier`, as the two functions the repository calls on it:
`model.predict(features)[0]` (a class index) and
`model.predict_proba(features)[0]` (per-class probabilities). Its
internals are external to the repository. -/
structure RFModel where
  predictIdx : List ℚ → ℕ
  predictProba : List ℚ → List ℚ

/-- src/model/classifier.py `VoiceClassifier` state: `self.model`,
`self.feature_names`, `self.class_names`, `self.trained`. -/
structure VoiceClassifier where
  model : RFModel
  feature_names : Option (List String)
  class_names : List String
  trained : Bool

/-- The fresh, untrained `RandomForestClassifier(...)` built in
`__init__`; its behaviour is irrelevant to the claims (it is only ever
used after training or after being overwritten by `load_model`). -/
def freshRF : RFModel :=
  ⟨fun _ => 0, fun _ => []⟩

/-- src/model/classifier.py `VoiceClassifier.__init__` field values. -/
def VoiceClassifier.init : VoiceClassifier :=
  ⟨freshRF, none, ["HUMAN", "AI_GENERATED"], false⟩

/-- src/model/classifier.py `VoiceClassifier.predict`: raises
`RuntimeError` when untrained, else returns
`(class_names[prediction], probabilities[prediction])`. The 1-D reshape is
a no-op in this model; Python list indexing is modelled with `getD`. -/
def VoiceClassifier.predict (c : VoiceClassifier) (features : List ℚ) :
    Except String (String × ℚ) :=
  if c.trained = false then
    .error "Model not trained. Load a trained model first."
  else
    let prediction := c.model.predictIdx features
    let probabilities := c.model.predictProba features
    .ok (c.class_names.getD prediction "", probabilities.getD prediction 0)

/-- src/model/classifier.py `save_model`: the `model_data` dictionary
handed to `joblib.dump`. -/
structure ModelData where
  model : RFModel
  feature_names : Option (List String)
  class_names : List String
  trained : Bool

/-- src/model/classifier.py `VoiceClassifier.save_model`: refuses an
untrained model, else serializes the four fields as one artifact
(`joblib.dump` is modelled as the identity on that dictionary). -/
def save_model (c : VoiceClassifier) : Except String ModelData :=
  if c.trained = false then .error "Cannot save untrained model"
  else .ok ⟨c.model, c.feature_names, c.class_names, c.trained⟩

/-- src/model/classifier.py `VoiceClassifier.load_model`: checks the file
exists (`stored = none` models a missing path), builds `cls()` and
overwrites all four fields from the artifact. -/
def load_model (stored : Option ModelData) : Except String VoiceClassifier :=
  match stored with
  | none => .error "Model file not found"
  | some d =>
    .ok { VoiceClassifier.init with
          model := d.model, feature_names := d.feature_names,
          class_names := d.class_names, trained := d.trained }

/-- src/utils/feature_extractor.py `FeatureExtractor()` defaults:
`n_mfcc = 13` (the engine constructs the extractor with no arguments). -/
def n_mfcc : ℕ := 13

/-- `float(np.mean(row))`. -/
def npMean (xs : List ℚ) : ℚ := xs.sum / xs.length

/-- `float(np.std(row))`: the population standard deviation. `Rat.sqrt` is
the rational surrogate for the float square root; the claims settled here
depend only on the position of this statistic, not its value. -/
def npStd (xs : List ℚ) : ℚ :=
  Rat.sqrt (((xs.map (fun x => (x - npMean xs) ^ 2)).sum) / xs.length)

/-- `float(np.min(row))`; `np.min` raises on an empty array (rows from a
≥0.5 s clip are nonempty), 0 is returned on `[]` only for totality. -/
def npMin : List ℚ → ℚ
  | [] => 0
  | h :: t => t.foldl min h

/-- `float(np.max(row))`; same empty-array caveat as `npMin`. -/
def npMax : List ℚ → ℚ
  | [] => 0
  | h :: t => t.foldl max h

/-- The four statistics `_compute_statistics` appends per row, in source
order: mean, std, min, max. -/
def statBlock (row : List ℚ) : List ℚ :=
  [npMean row, npStd row, npMin row, npMax row]

/-- src/utils/feature_extractor.py `FeatureExtractor._compute_statistics`:
for each row of the matrix, extend the list with the four statistics. -/
def _compute_statistics (feature_matrix : List (List ℚ)) : List ℚ :=
  feature_matrix.flatMap statBlock

/-- The six matrices the `librosa.feature` calls in `extract_features`
return (each a list of rows; a row is the time series of one coefficient).
For the configured parameters librosa yields 13 MFCC rows
(`n_mfcc = 13`), one row each for centroid/rolloff/zcr/bandwidth, and 12
chroma rows; those shapes appear as hypotheses in the theorems. -/
structure LibrosaFeatures where
  mfcc : List (List ℚ)
  spectral_centroid : List (List ℚ)
  spectral_rolloff : List (List ℚ)
  zcr : List (List ℚ)
  spectral_bandwidth : List (List ℚ)
  chroma : List (List ℚ)

/-- src/utils/feature_extractor.py `FeatureExtractor.extract_features`:
the statistics of the six matrices concatenated in source order. -/
def extract_features (f : LibrosaFeatures) : List ℚ :=
  _compute_statistics f.mfcc
    ++ _compute_statistics f.spectral_centroid
    ++ _compute_statistics f.spectral_rolloff
    ++ _compute_statistics f.zcr
    ++ _compute_statistics f.spectral_bandwidth
    ++ _compute_statistics f.chroma

/-- The four names `get_feature_names` appends per base name, in source
order: `_mean`, `_std`, `_min`, `_max`. -/
def nameBlock (n : String) : List String :=
  [n ++ "_mean", n ++ "_std", n ++ "_min", n ++ "_max"]

/-- src/utils/feature_extractor.py `FeatureExtractor.get_feature_names`:
13 MFCC names, the four spectral names, 12 chroma names, four statistics
each. -/
def get_feature_names : List String :=
  ((List.range n_mfcc).flatMap (fun i => nameBlock ("mfcc_" ++ toString i)))
    ++ (["spectral_centroid", "spectral_rolloff",
         "zero_crossing_rate", "spectral_bandwidth"].flatMap nameBlock)
    ++ ((List.range 12).flatMap (fun i => nameBlock ("chroma_" ++ toString i)))

/-- The 28 rows of `extract_features` in order (13 MFCC, centroid,
rolloff, zcr, bandwidth, 12 chroma). -/
def allRows (f : LibrosaFeatures) : List (List ℚ) :=
  f.mfcc ++ f.spectral_centroid ++ f.spectral_rolloff ++ f.zcr
    ++ f.spectral_bandwidth ++ f.chroma

/-- The 28 base names in the order `get_feature_names` emits them. -/
def rowNames : List String :=
  ((List.range n_mfcc).map (fun i => "mfcc_" ++ toString i))
    ++ ["spectral_centroid", "spectral_rolloff",
        "zero_crossing_rate", "spectral_bandwidth"]
    ++ ((List.range 12).map (fun i => "chroma_" ++ toString i))

/-! ## Theorems -/

/-- C1: for every raw classifier output, a label of `AI_GENERATED` with
confidence strictly below 0.85 is downgraded to `HUMAN`, a label of
`AI_GENERATED` with confidence at least 0.85 is kept, and the confidence
value is unchanged by the override in all cases. -/
theorem C1_safety_override (label : String) (confidence : ℚ) :
    (label = "AI_GENERATED" → confidence < 17/20 →
      (applySafetyOverride label confidence).1 = "HUMAN") ∧
    (label = "AI_GENERATED" → 17/20 ≤ confidence →
      (applySafetyOverride label confidence).1 = "AI_GENERATED") ∧
    (applySafetyOverride label confidence).2 = confidence := by
  refine ⟨?_, ?_, ?_⟩
  · intro h1 h2
    simp [applySafetyOverride, h1, h2]
  · intro h1 h2
    have hlt : ¬(confidence < 17/20) := not_lt.mpr h2
    simp [applySafetyOverride, h1, hlt]
  · unfold applySafetyOverride
    split <;> rfl

/-- Witness for C1 at concrete confidences 0.4 and 0.9. -/
theorem C1_safety_override_witness :
    (applySafetyOverride "AI_GENERATED" (4/10)).1 = "HUMAN" ∧
    (applySafetyOverride "AI_GENERATED" (9/10)).1 = "AI_GENERATED" ∧
    (applySafetyOverride "AI_GENERATED" (4/10)).2 = 4/10 :=
  ⟨(C1_safety_override "AI_GENERATED" (4/10)).1 rfl (by norm_num),
   (C1_safety_override "AI_GENERATED" (9/10)).2.1 rfl (by norm_num),
   (C1_safety_override "AI_GENERATED" (4/10)).2.2⟩

/-- C6: `validate_url` raises `ValidationError` on `"not-a-valid-url"`
(no scheme/host) and on `"http://127.0.0.1/x.mp3"` (loopback target), and
in the `/predict` endpoint this validation runs before acquisition, so for
these inputs the pipeline — and hence any download — never runs, whatever
the network, decode and classifier behaviour would have been. -/
theorem C6_validation_before_download (net : NetBehavior)
    (decoded : Option (List ℚ × ℕ)) (lf : Bool) (l : String) (c : ℚ) :
    validate_url "not-a-valid-url" =
      .error (.validationError "Invalid URL: Invalid URL format") ∧
    validate_url "http://127.0.0.1/x.mp3" =
      .error (.validationError "Security: Cannot access local/internal resources") ∧
    (predict_voice "not-a-valid-url" net decoded lf l c).pipelineEntered = false ∧
    (predict_voice "not-a-valid-url" net decoded lf l c).response =
      .error (.validationError "Invalid URL: Invalid URL format") ∧
    (predict_voice "http://127.0.0.1/x.mp3" net decoded lf l c).pipelineEntered = false ∧
    (predict_voice "http://127.0.0.1/x.mp3" net decoded lf l c).response =
      .error (.validationError "Security: Cannot access local/internal resources") :=
  ⟨rfl, rfl, rfl, rfl, rfl, rfl⟩

/-- C9 (implicit): `download_audio`'s scheme test is a case-sensitive
literal prefix check, so every URL not starting with the exact lowercase
`http://` or `https://` is rejected with a `DownloadError` — including
`"HTTP://example.com/a.mp3"`, which `validate_url` (whose parser
lowercases the scheme) accepts. -/
theorem C9_case_sensitive_scheme :
    (∀ (url : String) (net : NetBehavior),
      (startsWithStr url "http://" || startsWithStr url "https://") = false →
      (download_audio url net).result =
        .error (.downloadError "Invalid URL: must use http or https protocol")) ∧
    (∀ net : NetBehavior,
      (download_audio "HTTP://example.com/a.mp3" net).result =
        .error (.downloadError "Invalid URL: must use http or https protocol")) ∧
    validate_url "HTTP://example.com/a.mp3" = .ok true := by
  refine ⟨?_, ?_, rfl⟩
  · intro url net h
    simp [download_audio, h]
  · intro net
    cases net <;> rfl

/-- Witness for C9 at the concrete URL `"ftp://a"`. -/
theorem C9_case_sensitive_scheme_witness :
    (download_audio "ftp://a" NetBehavior.connectFail).result =
      .error (.downloadError "Invalid URL: must use http or https protocol") :=
  C9_case_sensitive_scheme.1 "ftp://a" NetBehavior.connectFail (by decide)

/-- C10 (implicit): the private-network blocklist is a substring match
over the whole lowercased URL, so every URL containing `10.` or `172.16.`
or `192.168.` anywhere in it is rejected with a `ValidationError` —
including `"https://example.com/v10.mp3"`, whose host is public. -/
theorem C10_blocklist_substring :
    (∀ url : String,
      (strHasSub (strLower url) "10." = true ∨
       strHasSub (strLower url) "172.16." = true ∨
       strHasSub (strLower url) "192.168." = true) →
      ∃ msg, validate_url url = .error (.validationError msg)) ∧
    validate_url "https://example.com/v10.mp3" =
      .error (.validationError "Security: Cannot access local/internal resources") := by
  refine ⟨?_, rfl⟩
  intro url h
  have hany : dangerous_patterns.any (fun p => strHasSub (strLower url) p) = true := by
    rcases h with h | h | h
    · exact List.any_eq_true.mpr ⟨"10.", by simp [dangerous_patterns], h⟩
    · exact List.any_eq_true.mpr ⟨"172.16.", by simp [dangerous_patterns], h⟩
    · exact List.any_eq_true.mpr ⟨"192.168.", by simp [dangerous_patterns], h⟩
  unfold validate_url
  dsimp only
  split_ifs with h1 h2 h3
  · exact ⟨_, rfl⟩
  · exact ⟨_, rfl⟩
  · exact ⟨_, rfl⟩
  · exact ⟨_, rfl⟩

/-- Witness for C10 at the concrete URL `"https://example.com/v10.mp3"`. -/
theorem C10_blocklist_substring_witness :
    ∃ msg, validate_url "https://example.com/v10.mp3" =
      .error (.validationError msg) :=
  C10_blocklist_substring.1 "https://example.com/v10.mp3" (Or.inl (by decide))

/-- Any initial value is at most the `max`-fold over a list of rationals. -/
theorem le_foldlMax (b : ℚ) (l : List ℚ) : b ≤ l.foldl max b := by
  induction l generalizing b with
  | nil => exact le_refl b
  | cons a t ih => exact le_trans (le_max_left b a) (ih (max b a))

/-- Every member of a list is at most the `max`-fold over it. -/
theorem mem_le_foldlMax : ∀ {a : ℚ} (l : List ℚ) (b : ℚ), a ∈ l →
    a ≤ l.foldl max b := by
  intro a l
  induction l with
  | nil => intro b h; cases h
  | cons c t ih =>
    intro b h
    rcases List.mem_cons.mp h with rfl | hmem
    · exact le_trans (le_max_right b a) (le_foldlMax (max b a) t)
    · exact ih (max b c) hmem

/-- The `max`-fold collapses to the initial value when it bounds the list. -/
theorem foldlMax_of_le {l : List ℚ} {b : ℚ} (h : ∀ a ∈ l, a ≤ b) :
    l.foldl max b = b := by
  induction l with
  | nil => rfl
  | cons c t ih =>
    have hcb : max b c = b := max_eq_left (h c (List.mem_cons_self c t))
    simp only [List.foldl_cons, hcb]
    exact ih (fun a ha => h a (List.mem_cons_of_mem c ha))

/-- The peak `npAbsMax` bounds the absolute value of every sample. -/
theorem abs_le_npAbsMax {audio : List ℚ} {m : ℚ}
    (hm : npAbsMax audio = some m) : ∀ x ∈ audio, |x| ≤ m := by
  match audio with
  | [] => cases hm
  | h :: t =>
    simp only [npAbsMax, Option.some.injEq] at hm
    intro x hx
    rcases List.mem_cons.mp hx with rfl | hmem
    · exact hm ▸ le_foldlMax |x| (t.map (fun x => |x|))
    · exact hm ▸ mem_le_foldlMax (t.map (fun x => |x|)) |h|
        (List.mem_map_of_mem (fun x => |x|) hmem)

/-- C8: on every (non-empty) waveform `_normalize_audio` succeeds without
any division by zero: an all-zero waveform is returned unchanged, and a
waveform with a nonzero sample is divided by its positive peak absolute
value, leaving every output sample in `[-1, 1]`. -/
theorem C8_normalize_guarded (audio : List ℚ) (hne : audio ≠ []) :
    (∃ out, _normalize_audio audio = .ok out) ∧
    ((∀ x ∈ audio, x = 0) → _normalize_audio audio = .ok audio) ∧
    (∀ m, npAbsMax audio = some m → (∃ x ∈ audio, x ≠ 0) →
      0 < m ∧ _normalize_audio audio = .ok (audio.map (fun x => x / m)) ∧
      ∀ y ∈ audio.map (fun x => x / m), -1 ≤ y ∧ y ≤ 1) := by
  obtain ⟨h, t, rfl⟩ : ∃ h t, audio = h :: t := by
    cases audio with
    | nil => exact absurd rfl hne
    | cons h t => exact ⟨h, t, rfl⟩
  refine ⟨?_, ?_, ?_⟩
  · unfold _normalize_audio
    simp only [npAbsMax]
    split <;> exact ⟨_, rfl⟩
  · intro hz
    have hmax : npAbsMax (h :: t) = some 0 := by
      simp only [npAbsMax, Option.some.injEq]
      have hh : |h| = 0 := by rw [hz h (List.mem_cons_self h t)]; exact abs_zero
      rw [hh]
      exact foldlMax_of_le (by
        intro a ha
        rcases List.mem_map.mp ha with ⟨x, hx, rfl⟩
        rw [hz x (List.mem_cons_of_mem h hx)]
        simp)
    unfold _normalize_audio
    rw [hmax]
    simp
  · intro m hm ⟨x, hx, hxne⟩
    have habs := abs_le_npAbsMax hm
    have hmpos : 0 < m :=
      lt_of_lt_of_le (abs_pos.mpr hxne) (habs x hx)
    refine ⟨hmpos, ?_, ?_⟩
    · simp [_normalize_audio, hm, hmpos]
    · intro y hy
      rcases List.mem_map.mp hy with ⟨z, hz, rfl⟩
      have hzb := abs_le.mp (habs z hz)
      constructor
      · exact (le_div_iff₀ hmpos).mpr (by linarith [hzb.1])
      · exact (div_le_one hmpos).mpr hzb.2

/-- Witness for C8 on the concrete waveforms `[0, 0]` and `[1/2, -2]`. -/
theorem C8_normalize_guarded_witness :
    _normalize_audio [(0 : ℚ), 0] = .ok [(0 : ℚ), 0] ∧
    (0 : ℚ) < 2 ∧ _normalize_audio [(1/2 : ℚ), -2] =
      .ok ([(1/2 : ℚ), -2].map (fun x => x / 2)) :=
  ⟨(C8_normalize_guarded [(0 : ℚ), 0] (by simp)).2.1 (by
      intro x hx
      rcases List.mem_cons.mp hx with rfl | hx
      · rfl
      · rcases List.mem_cons.mp hx with rfl | hx
        · rfl
        · cases hx),
   ((C8_normalize_guarded [(1/2 : ℚ), -2] (by simp)).2.2 2 (by
      have h1 : |(1/2 : ℚ)| = 1/2 := abs_of_nonneg (by norm_num)
      have h2 : |(-2 : ℚ)| = 2 := by rw [abs_neg]; exact abs_of_nonneg (by norm_num)
      simp [npAbsMax, h1, h2]
      norm_num [h1])
      ⟨-2, by simp, by norm_num⟩).1,
   ((C8_normalize_guarded [(1/2 : ℚ), -2] (by simp)).2.2 2 (by
      have h1 : |(1/2 : ℚ)| = 1/2 := abs_of_nonneg (by norm_num)
      have h2 : |(-2 : ℚ)| = 2 := by rw [abs_neg]; exact abs_of_nonneg (by norm_num)
      simp [npAbsMax, h1, h2]
      norm_num [h1])
      ⟨-2, by simp, by norm_num⟩).2.1⟩

/-- C7: a decoded file with zero samples makes `load_and_preprocess` fail
with a `DownloadError`-class error, one representing less than 0.5 s at
the resampled rate fails with a `DownloadError` whose message contains
`Audio too short`, and in both cases no waveform is returned; concretely a
0.2 s clip at 16 kHz (3200 samples) fails that way. -/
theorem C7_min_length :
    (∀ (audio : List ℚ) (sr : ℕ), audio.length = 0 →
      ∃ msg, load_and_preprocess (some (audio, sr)) = .error (.downloadError msg)) ∧
    (∀ (audio : List ℚ) (sr : ℕ),
      0 < audio.length → (audio.length : ℚ) < (sr : ℚ) * (1/2) →
      load_and_preprocess (some (audio, sr)) = .error (.downloadError
        "Failed to load audio: Audio too short: minimum 0.5 seconds required") ∧
      strHasSub "Failed to load audio: Audio too short: minimum 0.5 seconds required"
        "Audio too short" = true) ∧
    load_and_preprocess (some (List.replicate 3200 (0 : ℚ), 16000)) =
      .error (.downloadError
        "Failed to load audio: Audio too short: minimum 0.5 seconds required") := by
  refine ⟨?_, ?_, ?_⟩
  · intro audio sr hlen
    exact ⟨"Failed to load audio: Audio file is empty or corrupted",
      by simp only [load_and_preprocess, if_pos hlen]⟩
  · intro audio sr hpos hshort
    have hne : ¬(audio.length = 0) := hpos.ne'
    refine ⟨?_, by decide⟩
    simp only [load_and_preprocess]
    rw [if_neg hne, if_pos hshort]
  · have hlen : (List.replicate 3200 (0 : ℚ)).length = 3200 :=
      List.length_replicate 3200 0
    have hne : ¬((List.replicate 3200 (0 : ℚ)).length = 0) := by
      rw [hlen]; norm_num
    have hshort : (((List.replicate 3200 (0 : ℚ)).length : ℚ) <
        ((16000 : ℕ) : ℚ) * (1/2)) := by
      rw [hlen]; norm_num
    simp only [load_and_preprocess]
    rw [if_neg hne, if_pos hshort]

/-- Witness for C7 on a concrete one-sample clip at 16 kHz. -/
theorem C7_min_length_witness :
    load_and_preprocess (some ([(0 : ℚ)], 16000)) = .error (.downloadError
      "Failed to load audio: Audio too short: minimum 0.5 seconds required") :=
  (C7_min_length.2.1 [(0 : ℚ)] 16000 (by norm_num) (by norm_num)).1

/-- C2 (code bug): the claim — and the spec — promise the temp file is
deleted on every exit path, but a network failure raised mid-stream by
`iter_content` after the file has been opened is re-raised by
`download_audio` without `os.remove`, and the caller's `temp_path` is
still `None`, so neither `process_audio_from_url` nor the engine's
`finally` block cleans it: the partial temp file survives the request.
Here the stream fails after one 8192-byte chunk was written. -/
theorem C2_mid_download_leak :
    ((enginePredict "https://example.com/a.mp3" (NetBehavior.streamFail [8192])
        none false "HUMAN" (1/2)).result =
      .error (.downloadError "Download failed: network error")) ∧
    (enginePredict "https://example.com/a.mp3" (NetBehavior.streamFail [8192])
        none false "HUMAN" (1/2)).tempFileExists = true :=
  ⟨rfl, rfl⟩

/-- C4: saving a trained classifier and loading the artifact back yields a
classifier with identical model, feature names, class names and trained
flag, hence identical `predict` output (label and confidence exactly
equal) on every feature vector. -/
theorem C4_save_load_roundtrip (c : VoiceClassifier) (h : c.trained = true) :
    ∃ d, save_model c = .ok d ∧
      ∃ c2, load_model (some d) = .ok c2 ∧
        c2.model = c.model ∧
        c2.feature_names = c.feature_names ∧
        c2.class_names = c.class_names ∧
        c2.trained = c.trained ∧
        ∀ features, c2.predict features = c.predict features := by
  refine ⟨⟨c.model, c.feature_names, c.class_names, c.trained⟩, ?_, ?_⟩
  · simp [save_model, h]
  · exact ⟨_, rfl, rfl, rfl, rfl, rfl, fun features => rfl⟩

/-- Witness for C4 on a concrete trained classifier. -/
theorem C4_save_load_roundtrip_witness :
    ∃ d, save_model ⟨⟨fun _ => 0, fun _ => [1, 0]⟩, some ["f0"],
        ["HUMAN", "AI_GENERATED"], true⟩ = .ok d ∧
      ∃ c2, load_model (some d) = .ok c2 ∧
        c2.model = (⟨⟨fun _ => 0, fun _ => [1, 0]⟩, some ["f0"],
          ["HUMAN", "AI_GENERATED"], true⟩ : VoiceClassifier).model ∧
        c2.feature_names = some ["f0"] ∧
        c2.class_names = ["HUMAN", "AI_GENERATED"] ∧
        c2.trained = true ∧
        ∀ features, c2.predict features =
          VoiceClassifier.predict ⟨⟨fun _ => 0, fun _ => [1, 0]⟩, some ["f0"],
            ["HUMAN", "AI_GENERATED"], true⟩ features :=
  C4_save_load_roundtrip
    ⟨⟨fun _ => 0, fun _ => [1, 0]⟩, some ["f0"], ["HUMAN", "AI_GENERATED"], true⟩ rfl

/-- While the running total is within the limit, the download loop trips
the over-limit branch exactly when the remaining bytes push it over. -/
theorem writeChunks_overLimit (chunks : List ℕ) :
    ∀ total consumed, total ≤ MAX_FILE_SIZE →
      ((writeChunks chunks total consumed).overLimit = true ↔
        MAX_FILE_SIZE < total + chunks.sum) := by
  induction chunks with
  | nil =>
    intro total consumed h
    simp only [writeChunks, List.sum_nil, Nat.add_zero]
    constructor
    · intro hfalse; cases hfalse
    · intro hlt; omega
  | cons c rest ih =>
    intro total consumed h
    by_cases hc : c = 0
    · subst hc
      have hred : writeChunks (0 :: rest) total consumed =
          writeChunks rest total (consumed + 1) := rfl
      rw [hred, List.sum_cons, Nat.zero_add]
      exact ih total (consumed + 1) h
    · by_cases hover : total + c > MAX_FILE_SIZE
      · simp only [writeChunks, if_neg hc, if_pos hover, List.sum_cons]
        constructor
        · intro _; omega
        · intro _; trivial
      · simp only [writeChunks, if_neg hc, if_neg hover, List.sum_cons]
        rw [ih (total + c) (consumed + 1) (by omega)]
        omega

/-- When the download loop trips the limit it does so at the first chunk
whose arrival pushes the running total over `MAX_FILE_SIZE`: every proper
prefix of the consumed chunks still fits. -/
theorem writeChunks_firstExceed (chunks : List ℕ) :
    ∀ total consumed, total ≤ MAX_FILE_SIZE →
      (writeChunks chunks total consumed).overLimit = true →
      ∃ j, (writeChunks chunks total consumed).consumed = consumed + j ∧
        MAX_FILE_SIZE < total + (chunks.take j).sum ∧
        ∀ k < j, total + (chunks.take k).sum ≤ MAX_FILE_SIZE := by
  induction chunks with
  | nil =>
    intro total consumed h hov
    simp [writeChunks] at hov
  | cons c rest ih =>
    intro total consumed h hov
    by_cases hc : c = 0
    · subst hc
      have hred : writeChunks (0 :: rest) total consumed =
          writeChunks rest total (consumed + 1) := rfl
      rw [hred] at hov ⊢
      obtain ⟨j, hj, hsum, hmin⟩ := ih total (consumed + 1) h hov
      refine ⟨j + 1, by rw [hj]; omega, ?_, ?_⟩
      · rw [List.take_succ_cons, List.sum_cons]
        omega
      · intro k hk
        cases k with
        | zero => simpa using h
        | succ k =>
          rw [List.take_succ_cons, List.sum_cons]
          have := hmin k (by omega)
          omega
    · by_cases hover : total + c > MAX_FILE_SIZE
      · simp only [writeChunks, if_neg hc, if_pos hover]
        refine ⟨1, by omega, ?_, ?_⟩
        · rw [List.take_succ_cons, List.sum_cons]
          simpa using hover
        · intro k hk
          have : k = 0 := by omega
          subst this
          simpa using h
      · simp only [writeChunks, if_neg hc, if_neg hover] at hov ⊢
        obtain ⟨j, hj, hsum, hmin⟩ := ih (total + c) (consumed + 1) (by omega) hov
        refine ⟨j + 1, by rw [hj]; omega, ?_, ?_⟩
        · rw [List.take_succ_cons, List.sum_cons]
          omega
        · intro k hk
          cases k with
          | zero => simpa using h
          | succ k =>
            rw [List.take_succ_cons, List.sum_cons]
            have := hmin k (by omega)
            omega

/-- C5: every download whose chunks sum to more than 50 MB fails with a
`DownloadError` whose message reports the file as too large; the loop
stops at the first chunk that pushes the running total over the limit
(every proper prefix of the consumed chunks still fits, and not all
chunks need be consumed), and the partial temp file is removed — no
residual temp file remains. -/
theorem C5_streaming_size_limit (url : String) (chunks : List ℕ)
    (hscheme : (startsWithStr url "http://" || startsWithStr url "https://") = true)
    (hsum : MAX_FILE_SIZE < chunks.sum) :
    ∃ msg, (download_audio url (.complete chunks)).result =
        .error (.downloadError msg) ∧
      strHasSub msg "File too large" = true ∧
      (download_audio url (.complete chunks)).tempFileExists = false ∧
      ∃ j, (download_audio url (.complete chunks)).chunksConsumed = j ∧
        j ≤ chunks.length ∧
        MAX_FILE_SIZE < (chunks.take j).sum ∧
        ∀ k < j, (chunks.take k).sum ≤ MAX_FILE_SIZE := by
  have h0 : (0 : ℕ) ≤ MAX_FILE_SIZE := Nat.zero_le _
  have hov : (writeChunks chunks 0 0).overLimit = true :=
    (writeChunks_overLimit chunks 0 0 h0).mpr (by simpa using hsum)
  obtain ⟨j, hj, hsum', hmin⟩ := writeChunks_firstExceed chunks 0 0 h0 hov
  have hjle : j ≤ chunks.length := by
    by_contra hgt
    have hfit := hmin chunks.length (by omega)
    rw [List.take_length] at hfit
    omega
  simp only [download_audio, if_neg (not_not_intro hscheme)]
  rw [if_pos hov]
  exact ⟨_, rfl, by decide, rfl, j, by simpa using hj, hjle,
    by simpa using hsum', fun k hk => by simpa using hmin k hk⟩

/-- Witness for C5: a single 52 428 801-byte chunk on a well-formed URL. -/
theorem C5_streaming_size_limit_witness :
    ∃ msg, (download_audio "https://example.com/big.mp3"
        (.complete [52428801])).result = .error (.downloadError msg) ∧
      strHasSub msg "File too large" = true ∧
      (download_audio "https://example.com/big.mp3"
        (.complete [52428801])).tempFileExists = false ∧
      ∃ j, (download_audio "https://example.com/big.mp3"
          (.complete [52428801])).chunksConsumed = j ∧
        j ≤ [52428801].length ∧
        MAX_FILE_SIZE < ([52428801].take j).sum ∧
        ∀ k < j, (([52428801] : List ℕ).take k).sum ≤ MAX_FILE_SIZE :=
  C5_streaming_size_limit "https://example.com/big.mp3" [52428801]
    (by decide) (by norm_num [MAX_FILE_SIZE])

/-- A `flatMap` whose blocks all have length 4 has `4 ×` the list length. -/
theorem length_flatMap_four {α β : Type} (g : α → List β)
    (hg : ∀ x, (g x).length = 4) :
    ∀ l : List α, (l.flatMap g).length = 4 * l.length := by
  intro l
  induction l with
  | nil => simp
  | cons a t ih =>
    rw [List.flatMap_cons, List.length_append, hg a, ih, List.length_cons]
    ring

/-- Block `i` of a `flatMap` with uniform block length 4 is the image of
element `i`. -/
theorem flatMap_block_four {α β : Type} (g : α → List β)
    (hg : ∀ x, (g x).length = 4) (d : α) :
    ∀ (l : List α) (i : ℕ), i < l.length →
      ((l.flatMap g).drop (4 * i)).take 4 = g (l.getD i d) := by
  intro l
  induction l with
  | nil => intro i hi; exact absurd hi (Nat.not_lt_zero i)
  | cons a t ih =>
    intro i hi
    cases i with
    | zero =>
      rw [Nat.mul_zero, List.drop_zero, List.flatMap_cons, List.getD_cons_zero]
      exact List.take_left' (hg a)
    | succ i =>
      have h4 : 4 * (i + 1) = (g a).length + 4 * i := by rw [hg a]; ring
      rw [List.flatMap_cons, h4, List.drop_append, List.getD_cons_succ]
      exact ih i (by simpa using hi)

/-- C3 counterexample: the claim groups the feature vector into 28 rows of
four statistics, but the source emits 13 MFCC + 4 spectral + 12 chroma =
29 rows, and 4 × 28 = 112 ≠ 116, the actual vector and name-list length. -/
theorem C3_counterexample :
    rowNames.length = 29 ∧ ¬(rowNames.length = 28) ∧
    get_feature_names.length = 116 ∧ ¬(get_feature_names.length = 4 * 28) :=
  ⟨rfl, by decide, rfl, by decide⟩

/-- C3 (amended: 29 rows, not 28): with the librosa matrix shapes for the
configured parameters, `extract_features` returns exactly 116 values and
`get_feature_names` exactly 116 names; both decompose into the same
29-row order (13 MFCC, centroid, rolloff, zero-crossing rate, bandwidth,
12 chroma), and block `i` of each holds the four statistics mean, std,
min, max of row `i`, consecutively in that fixed order. -/
theorem C3_feature_vector_order (f : LibrosaFeatures)
    (h1 : f.mfcc.length = 13) (h2 : f.spectral_centroid.length = 1)
    (h3 : f.spectral_rolloff.length = 1) (h4 : f.zcr.length = 1)
    (h5 : f.spectral_bandwidth.length = 1) (h6 : f.chroma.length = 12) :
    (extract_features f).length = 116 ∧
    get_feature_names.length = 116 ∧
    extract_features f = (allRows f).flatMap statBlock ∧
    get_feature_names = rowNames.flatMap nameBlock ∧
    (allRows f).length = 29 ∧ rowNames.length = 29 ∧
    ∀ i, i < 29 →
      ((get_feature_names.drop (4 * i)).take 4 =
        [rowNames.getD i "" ++ "_mean", rowNames.getD i "" ++ "_std",
         rowNames.getD i "" ++ "_min", rowNames.getD i "" ++ "_max"]) ∧
      (((extract_features f).drop (4 * i)).take 4 =
        [npMean ((allRows f).getD i []), npStd ((allRows f).getD i []),
         npMin ((allRows f).getD i []), npMax ((allRows f).getD i [])]) := by
  have hrows : (allRows f).length = 29 := by
    simp [allRows, h1, h2, h3, h4, h5, h6]
  have hfeat : extract_features f = (allRows f).flatMap statBlock := by
    simp [extract_features, allRows, _compute_statistics, List.flatMap_append]
  have hnames : get_feature_names = rowNames.flatMap nameBlock := rfl
  have hsb : ∀ r : List ℚ, (statBlock r).length = 4 := fun _ => rfl
  have hnb : ∀ n : String, (nameBlock n).length = 4 := fun _ => rfl
  refine ⟨?_, rfl, hfeat, hnames, hrows, rfl, ?_⟩
  · rw [hfeat, length_flatMap_four statBlock hsb, hrows]
  · intro i hi
    constructor
    · rw [hnames]
      exact flatMap_block_four nameBlock hnb "" rowNames i hi
    · rw [hfeat]
      exact flatMap_block_four statBlock hsb [] (allRows f) i (hrows ▸ hi)

/-- Witness for C3 (amended) on concrete one-frame matrices of the right
librosa shapes. -/
theorem C3_feature_vector_order_witness :
    (extract_features ⟨List.replicate 13 [(0 : ℚ)], [[0]], [[0]], [[0]], [[0]],
      List.replicate 12 [0]⟩).length = 116 :=
  (C3_feature_vector_order
    ⟨List.replicate 13 [(0 : ℚ)], [[0]], [[0]], [[0]], [[0]], List.replicate 12 [0]⟩
    (by simp) (by simp) (by simp) (by simp) (by simp) (by simp)).1
